import Mathlib

/-!
Shallow embedding of the observability and orchestration core of the
acai-travel-challenge repository: the OpenTelemetry lifecycle
(`internal/httpx/otel.go`), the HTTP metrics middleware
(`internal/httpx/metrics.go`), and the `StartConversation`
title/reply orchestration described in the repository README.

Go errors are modelled as `Option Err` (with `Err := String`), Go
`(T, error)` return values as pairs, and the process-global OpenTelemetry
registration state as an explicit record threaded through `InitTelemetry`.
-/

/-- Go `error` payloads, modelled as strings. -/
def Err := String

instance : DecidableEq Err := inferInstanceAs (DecidableEq String)

/-! ## Telemetry lifecycle (`internal/httpx/otel.go`) -/

/-- The process-wide OpenTelemetry registration state mutated by
`otel.SetMeterProvider` / `otel.SetTracerProvider`. -/
structure OtelGlobals where
  meterProviderSet : Bool
  tracerProviderSet : Bool
deriving DecidableEq

/-- The clean process state before `InitTelemetry` runs. -/
def OtelGlobals.clean : OtelGlobals := ⟨false, false⟩

/-- Environment for one run of `InitTelemetry`: which of the three
fallible construction steps (`resource.New`, `stdoutmetric.New`,
`stdouttrace.New`) fails, and with what error. -/
structure InitEnv where
  resourceErr : Option Err
  metricExpErr : Option Err
  traceExpErr : Option Err

/-- Which provider shutdowns the returned closure actually invokes. -/
inductive ShutEvent where
  | tpShutdown
  | mpShutdown
deriving DecidableEq

/-- Environment for one invocation of the shutdown closure: the error, if
any, produced by `tp.Shutdown` and by `mp.Shutdown`. -/
structure ShutdownEnv where
  tpErr : Option Err
  mpErr : Option Err

/-- Result type of the shutdown closure: the shutdown calls performed, in
order, and the error returned to the caller. -/
def Shutdown := ShutdownEnv → List ShutEvent × Option Err

/-- The closure returned by `InitTelemetry`:
`if err := tp.Shutdown(ctx); err != nil { return err }; return mp.Shutdown(ctx)`. -/
def shutdownClosure : Shutdown := fun env =>
  match env.tpErr with
  | some e => ([ShutEvent.tpShutdown], some e)
  | none => ([ShutEvent.tpShutdown, ShutEvent.mpShutdown], env.mpErr)

/-- `InitTelemetry` from `internal/httpx/otel.go`, with the fallible
construction steps driven by `env` and the process-global provider
registrations made explicit.  The Go code builds the resource, then the
metric exporter, registers the meter provider (`otel.SetMeterProvider`),
then builds the trace exporter and registers the tracer provider; each
construction error aborts with an early `return nil, err`. -/
def InitTelemetry (env : InitEnv) (g : OtelGlobals) :
    OtelGlobals × Except Err Shutdown :=
  match env.resourceErr with
  | some e => (g, Except.error e)
  | none =>
    match env.metricExpErr with
    | some e => (g, Except.error e)
    | none =>
      let g1 := { g with meterProviderSet := true }
      match env.traceExpErr with
      | some e => (g1, Except.error e)
      | none =>
        (({ g1 with tracerProviderSet := true }), Except.ok shutdownClosure)

/-! ## Metrics middleware (`internal/httpx/metrics.go`) -/

/-- `statusCapturingWriter`: wraps the response writer, holding the last
status code written; constructed with `status: http.StatusOK`. -/
structure statusCapturingWriter where
  status : Nat
deriving DecidableEq

/-- `func (w *statusCapturingWriter) WriteHeader(code int)`. -/
def statusCapturingWriter.writeHeader (w : statusCapturingWriter) (code : Nat) :
    statusCapturingWriter :=
  { w with status := code }

/-- The status captured after the wrapped handler runs, the handler being
modelled by the list of `WriteHeader` codes it issues in order; the writer
starts at `http.StatusOK = 200`. -/
def capturedStatus (handlerCodes : List Nat) : Nat :=
  (handlerCodes.foldl statusCapturingWriter.writeHeader ⟨200⟩).status

/-- The attribute set built by `MetricsMiddleware`:
`http.method`, `http.route`, `http.status_code`. -/
structure Attrs where
  method : String
  route : String
  status_code : Nat
deriving DecidableEq

/-- An incoming HTTP request, restricted to the fields the middleware
reads (`r.Method`, `r.URL.Path`). -/
structure Request where
  method : String
  path : String

/-- `time.Duration.Milliseconds()` on a non-negative duration of `ns`
nanoseconds: integer division truncating to whole milliseconds. -/
def durationMillis (ns : Nat) : Nat := ns / 1000000

/-- The value passed to `latencyHistogram.Record`:
`float64(time.Since(start).Milliseconds())`.  Modelled in ℚ, where the
`float64` conversion of the truncated millisecond count is exact. -/
def latencyValue (ns : Nat) : ℚ := (durationMillis ns : ℚ)

/-- One recording made against the package-level instruments. -/
inductive MetricEvent where
  | reqAdd (n : Nat) (a : Attrs)
  | latencyRecord (v : ℚ) (a : Attrs)
  | errAdd (n : Nat) (a : Attrs)

/-- The attribute set attached to a recording. -/
def MetricEvent.attrs : MetricEvent → Attrs
  | MetricEvent.reqAdd _ a => a
  | MetricEvent.latencyRecord _ a => a
  | MetricEvent.errAdd _ a => a

/-- Whether an event is a request-counter increment. -/
def MetricEvent.isReq : MetricEvent → Bool
  | MetricEvent.reqAdd _ _ => true
  | _ => false

/-- Whether an event is a latency-histogram recording. -/
def MetricEvent.isLatency : MetricEvent → Bool
  | MetricEvent.latencyRecord _ _ => true
  | _ => false

/-- Whether an event is an error-counter increment. -/
def MetricEvent.isErr : MetricEvent → Bool
  | MetricEvent.errAdd _ _ => true
  | _ => false

/-- `MetricsMiddleware` from `internal/httpx/metrics.go`, as the list of
instrument recordings it performs for one request.  The handler is
modelled by the `WriteHeader` codes it issues and the elapsed wall time by
`elapsedNs` nanoseconds.  After the handler returns, the middleware builds
one attribute set and records: +1 to the request counter, the truncated
millisecond latency to the histogram, and +1 to the error counter iff the
captured status is ≥ 400. -/
def MetricsMiddleware (handlerCodes : List Nat) (r : Request) (elapsedNs : Nat) :
    List MetricEvent :=
  let status := capturedStatus handlerCodes
  let attrs : Attrs := ⟨r.method, r.path, status⟩
  [MetricEvent.reqAdd 1 attrs, MetricEvent.latencyRecord (latencyValue elapsedNs) attrs]
    ++ (if status ≥ 400 then [MetricEvent.errAdd 1 attrs] else [])

/-! ## StartConversation orchestration (repository README, Task 1 bonus) -/

/-- A conversation as the orchestration sees it: the title field mutated
by `conversation.Title = title` and the reply value joined into the
result. -/
structure Conversation where
  title : String
  reply : String
deriving DecidableEq

/-- The anonymous struct sent on `replyCh`: `{ val string; err error }`. -/
structure ReplyResult where
  val : String
  err : Option Err
deriving DecidableEq

/-- The error returned on reply failure:
`twirp.InternalErrorWith(replyResult.err)`. -/
inductive TwirpErr where
  | internalWith (e : Err)
deriving DecidableEq

/-- The fixed fallback title the orchestrating goroutine sends when the
title sub-operation errors or returns a blank string. -/
def fallbackTitle : String := "Untitled conversation"

/-- Go `unicode.IsSpace`: the Latin-1 fast path (`'\t'`, `'\n'`, `'\v'`,
`'\f'`, `'\r'`, `' '`, U+0085, U+00A0) plus the `unicode.White_Space`
range table (U+1680, U+2000–U+200A, U+2028, U+2029, U+202F, U+205F,
U+3000). -/
def goIsSpace (c : Char) : Bool :=
  c == ' ' || c == '\t' || c == '\n' || c == Char.ofNat 11 || c == Char.ofNat 12 ||
  c == '\r' || c == Char.ofNat 0x85 || c == Char.ofNat 0xA0 ||
  c == Char.ofNat 0x1680 ||
  (0x2000 ≤ c.toNat && c.toNat ≤ 0x200A) ||
  c == Char.ofNat 0x2028 || c == Char.ofNat 0x2029 || c == Char.ofNat 0x202F ||
  c == Char.ofNat 0x205F || c == Char.ofNat 0x3000

/-- Go `strings.TrimSpace`: strip `unicode.IsSpace` characters from both
ends. -/
def goTrimSpace (s : String) : String :=
  String.mk (((s.toList.dropWhile goIsSpace).reverse.dropWhile goIsSpace).reverse)

/-- The value the title goroutine sends on `titleCh`, given the result
`(tv, te)` of `s.assist.Title`:
`if err != nil || strings.TrimSpace(title) == "" { titleCh <- "Untitled conversation" } else { titleCh <- title }`. -/
def goTitleSend (tv : String) (te : Option Err) : String :=
  if te.isSome || goTrimSpace tv == "" then fallbackTitle else tv

/-- `StartConversation` orchestration after both channel receives, given
the conversation and the results `(tv, te)` of `s.assist.Title` and
`(rv, re)` of `s.assist.Reply` delivered through the channels: on reply
error return `twirp.InternalErrorWith`, otherwise set the title and carry
the reply. -/
def StartConversation (conv : Conversation) (tv : String) (te : Option Err)
    (rv : String) (re : Option Err) : Except TwirpErr Conversation :=
  let title := goTitleSend tv te
  let replyResult : ReplyResult := ⟨rv, re⟩
  match replyResult.err with
  | some e => Except.error (TwirpErr.internalWith e)
  | none => Except.ok { conv with title := title, reply := replyResult.val }

/-! ### Channel rendezvous model

The orchestration's concurrency skeleton: two one-slot channels
(`titleCh`, `replyCh`), a goroutine delivering into each, and the
orchestrating routine which receives from `titleCh`, then from `replyCh`,
and only then inspects the results (`if replyResult.err != nil`). -/

/-- State of the rendezvous: the two one-slot channels and the program
counter of the orchestrating routine (0 = before `<-titleCh`,
1 = before `<-replyCh`, 2 = both received, inspecting results). -/
structure OrchState where
  titleSlot : Option String
  replySlot : Option ReplyResult
  pc : Nat
deriving DecidableEq

/-- Initial rendezvous state: both channels empty, orchestrator at the
first receive. -/
def OrchState.init : OrchState := ⟨none, none, 0⟩

/-- One scheduling step of the orchestration, parameterized by the results
of the two sub-operations.  The two sends may happen in either order; the
orchestrating routine can pass its first receive only when `titleCh` holds
a value and its second only when `replyCh` does. -/
inductive OrchStep (tv : String) (te : Option Err) (rv : String) (re : Option Err) :
    OrchState → OrchState → Prop where
  | sendTitle (s : OrchState) : s.titleSlot = none →
      OrchStep tv te rv re s { s with titleSlot := some (goTitleSend tv te) }
  | sendReply (s : OrchState) : s.replySlot = none →
      OrchStep tv te rv re s { s with replySlot := some ⟨rv, re⟩ }
  | recvTitle (s : OrchState) (t : String) : s.pc = 0 → s.titleSlot = some t →
      OrchStep tv te rv re s { s with pc := 1 }
  | recvReply (s : OrchState) (rr : ReplyResult) : s.pc = 1 → s.replySlot = some rr →
      OrchStep tv te rv re s { s with pc := 2 }

/-- Reachability along `OrchStep` from a given start state. -/
inductive OrchReach (tv : String) (te : Option Err) (rv : String) (re : Option Err)
    (s0 : OrchState) : OrchState → Prop where
  | refl : OrchReach tv te rv re s0 s0
  | tail {s t : OrchState} : OrchReach tv te rv re s0 s →
      OrchStep tv te rv re s t → OrchReach tv te rv re s0 t

/-! ## Title generation (repository README, Task 1) -/

/-- One choice of a chat-completion response. -/
structure Choice where
  content : String
deriving Inhabited

/-- A chat-completion response, restricted to what `Title` reads
(`resp.Choices`, each choice's `Message.Content`). -/
structure ChatResp where
  choices : List Choice
deriving Inhabited

/-- The fallback title the `Title` method itself returns on a failed or
empty model response. -/
def titleFallback : String := "New conversation"

/-- Go `strings.Trim(s, cutset)`: strip any characters of the cutset from
both ends. -/
def goTrim (s : String) (cutset : List Char) : String :=
  String.mk (((s.toList.dropWhile (· ∈ cutset)).reverse.dropWhile (· ∈ cutset)).reverse)

/-- The cutset of `strings.Trim(title, " \t\r\n-\"'")`; the two quote
characters are written via their code points. -/
def titleTrimCutset : List Char :=
  [' ', '\t', '\r', '\n', '-', Char.ofNat 34, Char.ofNat 39]

/-- The response-handling tail of the `Title` method, given the outcome
`(err, resp)` of the chat-completion call: fall back on error or no
choices, replace newlines by spaces, trim the cutset, fall back if the
cleaned title is empty, truncate to 80 (Go slices bytes; modelled at
character granularity, which agrees on ASCII titles). -/
def Title (err : Option Err) (resp : ChatResp) : String × Option Err :=
  if err.isSome || resp.choices.isEmpty then (titleFallback, none)
  else
    let t := goTrim ((resp.choices.headI.content).replace "\n" " ") titleTrimCutset
    if t == "" then (titleFallback, none)
    else if t.length > 80 then (String.mk (t.toList.take 80), none)
    else (t, none)

/-! ## Claims -/

/-- C1, counterexample: when the trace provider's shutdown fails, the
shutdown closure returned by `InitTelemetry` returns that error without
attempting the metric provider's shutdown, refuting "both shutdowns are
attempted even if the first fails". -/
theorem C1_counterexample :
    ShutEvent.mpShutdown ∉ (shutdownClosure ⟨some "boom", none⟩).1 ∧
    (shutdownClosure ⟨some "boom", none⟩).2 = some "boom" := by
  exact ⟨by decide, rfl⟩

/-- C1 (amended): for every invocation of the shutdown function returned
by `InitTelemetry`, the trace provider is shut down first; if that fails,
its error is returned and the metric provider's shutdown is not attempted;
if it succeeds, the metric provider is then shut down and its result is
returned. -/
theorem C1_shutdown_trace_then_metric :
    (∀ g, (InitTelemetry ⟨none, none, none⟩ g).2 = Except.ok shutdownClosure) ∧
    (∀ env, (shutdownClosure env).1.head? = some ShutEvent.tpShutdown) ∧
    (∀ mp e, shutdownClosure ⟨some e, mp⟩ = ([ShutEvent.tpShutdown], some e)) ∧
    (∀ mp, shutdownClosure ⟨none, mp⟩ =
      ([ShutEvent.tpShutdown, ShutEvent.mpShutdown], mp)) := by
  refine ⟨fun g => rfl, fun env => ?_, fun mp e => rfl, fun mp => rfl⟩
  obtain ⟨tp, mp⟩ := env
  cases tp <;> rfl

/-- C5, counterexample: when the trace exporter's construction fails, the
meter provider has already been registered process-wide, refuting "no
partial telemetry state is left globally registered"; the error is still
returned. -/
theorem C5_counterexample :
    (InitTelemetry ⟨none, none, some "texp"⟩ OtelGlobals.clean).1.meterProviderSet = true ∧
    (InitTelemetry ⟨none, none, some "texp"⟩ OtelGlobals.clean).2 = Except.error "texp" := by
  exact ⟨rfl, rfl⟩

/-- C5 (amended): every construction failure inside `InitTelemetry` aborts
the call and returns that error; on resource or metric-exporter failure no
provider has been registered, but on trace-exporter failure the meter
provider has already been registered process-wide (the tracer provider has
not). -/
theorem C5_init_failure_state :
    (∀ e m t g, InitTelemetry ⟨some e, m, t⟩ g = (g, Except.error e)) ∧
    (∀ e t g, InitTelemetry ⟨none, some e, t⟩ g = (g, Except.error e)) ∧
    (∀ e, InitTelemetry ⟨none, none, some e⟩ OtelGlobals.clean =
      (⟨true, false⟩, Except.error e)) := by
  exact ⟨fun e m t g => rfl, fun e t g => rfl, fun e => rfl⟩

/-- C2: whenever the reply sub-operation delivers an error, the
orchestration returns that error wrapped as an internal error and no
conversation, whatever the title outcome was. -/
theorem C2_reply_error_fails_orchestration (conv : Conversation) (tv : String)
    (te : Option Err) (rv : String) (e : Err) :
    StartConversation conv tv te rv (some e) = Except.error (TwirpErr.internalWith e) := rfl

/-- C3: whenever the title sub-operation errors or returns a blank string
and the reply succeeds, the resulting conversation's title is the fixed
fallback constant and the successful reply is still carried. -/
theorem C3_title_fallback_not_terminal (conv : Conversation) (tv : String)
    (te : Option Err) (rv : String) (h : te.isSome = true ∨ goTrimSpace tv = "") :
    StartConversation conv tv te rv none =
      Except.ok { conv with title := fallbackTitle, reply := rv } := by
  unfold StartConversation goTitleSend
  rcases h with h | h <;> simp [h]

/-- Witness for C3 at a whitespace-only title result. -/
theorem C3_title_fallback_not_terminal_witness :
    StartConversation ⟨"t0", "r0"⟩ "   " none "hello" none =
      Except.ok ⟨fallbackTitle, "hello"⟩ :=
  C3_title_fallback_not_terminal ⟨"t0", "r0"⟩ "   " none "hello" (Or.inr (by decide))

/-- C7: when both sub-operations succeed with non-blank results, the
resulting conversation carries exactly those two strings, unmodified. -/
theorem C7_both_values_unmodified (conv : Conversation) (tv rv : String)
    (ht : goTrimSpace tv ≠ "") (_hr : goTrimSpace rv ≠ "") :
    StartConversation conv tv none rv none =
      Except.ok { conv with title := tv, reply := rv } := by
  unfold StartConversation goTitleSend
  simp [ht]

/-- Witness for C7 at concrete non-blank title and reply values. -/
theorem C7_both_values_unmodified_witness :
    StartConversation ⟨"t0", "r0"⟩ "Go syntax" none "Here is an overview" none =
      Except.ok ⟨"Go syntax", "Here is an overview"⟩ :=
  C7_both_values_unmodified ⟨"t0", "r0"⟩ "Go syntax" "Here is an overview"
    (by decide) (by decide)

/-- C9: the orchestrator's fallback title is exactly
`"Untitled conversation"`, used by the title goroutine on any errored
title result, and it differs from the `"New conversation"` fallback that
the `Title` method itself returns on a failed or empty model response. -/
theorem C9_two_distinct_fallbacks :
    fallbackTitle = "Untitled conversation" ∧
    titleFallback = "New conversation" ∧
    fallbackTitle ≠ titleFallback ∧
    (∀ tv e, goTitleSend tv (some e) = fallbackTitle) ∧
    (∀ e resp, Title (some e) resp = (titleFallback, none)) ∧
    Title none ⟨[]⟩ = (titleFallback, none) := by
  refine ⟨rfl, rfl, by decide, fun tv e => ?_, fun e resp => ?_, rfl⟩
  · simp [goTitleSend]
  · simp [Title]

/-- C6: when the wrapped handler never calls `WriteHeader`, the captured
status is 200, every recording carries status code 200 in its attributes,
and the error counter is not incremented. -/
theorem C6_default_status_is_200 (r : Request) (ns : Nat) :
    capturedStatus [] = 200 ∧
    (MetricsMiddleware [] r ns).all
      (fun ev => (MetricEvent.attrs ev).status_code == 200) = true ∧
    (MetricsMiddleware [] r ns).countP (fun ev => MetricEvent.isErr ev) = 0 := by
  exact ⟨rfl, rfl, rfl⟩

/-- C4: for every request, exactly one request-counter increment (of 1),
exactly one latency observation (of the non-negative truncated millisecond
value), an error-counter increment of 1 exactly when the captured status
is ≥ 400, and the same attribute set (method, path, captured status) on
every recording. -/
theorem C4_middleware_recordings (codes : List Nat) (r : Request) (ns : Nat) :
    (MetricsMiddleware codes r ns).countP (fun ev => MetricEvent.isReq ev) = 1 ∧
    (MetricsMiddleware codes r ns).countP (fun ev => MetricEvent.isLatency ev) = 1 ∧
    (MetricsMiddleware codes r ns).countP (fun ev => MetricEvent.isErr ev)
      = (if capturedStatus codes ≥ 400 then 1 else 0) ∧
    MetricEvent.reqAdd 1 ⟨r.method, r.path, capturedStatus codes⟩
      ∈ MetricsMiddleware codes r ns ∧
    MetricEvent.latencyRecord (latencyValue ns) ⟨r.method, r.path, capturedStatus codes⟩
      ∈ MetricsMiddleware codes r ns ∧
    0 ≤ latencyValue ns ∧
    (MetricsMiddleware codes r ns).all
      (fun ev => MetricEvent.attrs ev == ⟨r.method, r.path, capturedStatus codes⟩) = true := by
  by_cases h : capturedStatus codes ≥ 400 <;>
    simp [MetricsMiddleware, h, List.countP_cons, MetricEvent.isReq, MetricEvent.isLatency,
      MetricEvent.isErr, MetricEvent.attrs, latencyValue, Nat.cast_nonneg]

/-- C10: the value recorded to the latency histogram is the elapsed
duration truncated to whole milliseconds — an integer-valued, non-negative
quantity — and any request completing in under one millisecond records
exactly 0. -/
theorem C10_latency_truncated_millis (codes : List Nat) (r : Request) (ns : Nat) :
    MetricEvent.latencyRecord ((ns / 1000000 : Nat) : ℚ) ⟨r.method, r.path, capturedStatus codes⟩
      ∈ MetricsMiddleware codes r ns ∧
    (∃ k : Nat, latencyValue ns = (k : ℚ)) ∧
    0 ≤ latencyValue ns ∧
    (ns < 1000000 → latencyValue ns = 0) := by
  refine ⟨?_, ⟨ns / 1000000, rfl⟩, by simp [latencyValue], fun h => ?_⟩
  · simp [MetricsMiddleware, latencyValue, durationMillis]
  · simp [latencyValue, durationMillis, Nat.div_eq_of_lt h]

/-- Witness for C10: a 999999 ns request records exactly 0 milliseconds. -/
theorem C10_latency_truncated_millis_witness : latencyValue 999999 = 0 :=
  (C10_latency_truncated_millis [] ⟨"GET", "/x"⟩ 999999).2.2.2 (by decide)

/-- Reachability composes transitively. -/
theorem OrchReach.trans {tv : String} {te : Option Err} {rv : String} {re : Option Err}
    {a b c : OrchState} (h1 : OrchReach tv te rv re a b) (h2 : OrchReach tv te rv re b c) :
    OrchReach tv te rv re a c := by
  induction h2 with
  | refl => exact h1
  | tail _ hstep ih => exact OrchReach.tail ih hstep

/-- Invariant of the rendezvous: past the first receive the title slot is
filled, past the second both slots are filled. -/
def OrchInv (s : OrchState) : Prop :=
  (1 ≤ s.pc → s.titleSlot.isSome = true) ∧ (2 ≤ s.pc → s.replySlot.isSome = true)

/-- Every state reachable from the initial rendezvous state satisfies the
invariant. -/
theorem orchInv_of_reach {tv : String} {te : Option Err} {rv : String} {re : Option Err}
    {s : OrchState} (h : OrchReach tv te rv re OrchState.init s) : OrchInv s := by
  induction h with
  | refl => exact ⟨fun h1 => by simp [OrchState.init] at h1, fun h2 => by simp [OrchState.init] at h2⟩
  | tail _ hstep ih =>
    cases hstep with
    | sendTitle hs => exact ⟨fun _ => rfl, ih.2⟩
    | sendReply hs => exact ⟨ih.1, fun _ => rfl⟩
    | recvTitle t hpc hslot =>
      exact ⟨fun _ => by simp [hslot], fun h2 => by simp at h2⟩
    | recvReply rr hpc hslot =>
      exact ⟨fun _ => ih.1 (by omega), fun _ => by simp [hslot]⟩

/-- C8: the orchestrating routine reaches its inspection point (pc = 2,
the `if replyResult.err != nil` branch) only in states where both
rendezvous slots have been delivered; and both delivery orders — reply
first or title first — are admitted by the step relation and still reach
the inspection point. -/
theorem C8_rendezvous_before_inspection (tv : String) (te : Option Err)
    (rv : String) (re : Option Err) :
    (∀ s : OrchState, OrchReach tv te rv re OrchState.init s → 2 ≤ s.pc →
      s.titleSlot.isSome = true ∧ s.replySlot.isSome = true) ∧
    OrchReach tv te rv re OrchState.init ⟨none, some ⟨rv, re⟩, 0⟩ ∧
    OrchReach tv te rv re ⟨none, some ⟨rv, re⟩, 0⟩
      ⟨some (goTitleSend tv te), some ⟨rv, re⟩, 2⟩ ∧
    OrchReach tv te rv re OrchState.init ⟨some (goTitleSend tv te), none, 0⟩ ∧
    OrchReach tv te rv re ⟨some (goTitleSend tv te), none, 0⟩
      ⟨some (goTitleSend tv te), some ⟨rv, re⟩, 2⟩ := by
  refine ⟨fun s hreach h2 => ?_, ?_, ?_, ?_, ?_⟩
  · have hinv := orchInv_of_reach hreach
    exact ⟨hinv.1 (by omega), hinv.2 h2⟩
  · exact OrchReach.tail OrchReach.refl (OrchStep.sendReply OrchState.init rfl)
  · have h1 : OrchReach tv te rv re (⟨none, some ⟨rv, re⟩, 0⟩ : OrchState)
        ⟨some (goTitleSend tv te), some ⟨rv, re⟩, 0⟩ :=
      OrchReach.tail OrchReach.refl (OrchStep.sendTitle _ rfl)
    have h2 : OrchReach tv te rv re (⟨none, some ⟨rv, re⟩, 0⟩ : OrchState)
        ⟨some (goTitleSend tv te), some ⟨rv, re⟩, 1⟩ :=
      OrchReach.tail h1 (OrchStep.recvTitle _ _ rfl rfl)
    exact OrchReach.tail h2 (OrchStep.recvReply _ _ rfl rfl)
  · exact OrchReach.tail OrchReach.refl (OrchStep.sendTitle OrchState.init rfl)
  · have h1 : OrchReach tv te rv re (⟨some (goTitleSend tv te), none, 0⟩ : OrchState)
        ⟨some (goTitleSend tv te), some ⟨rv, re⟩, 0⟩ :=
      OrchReach.tail OrchReach.refl (OrchStep.sendReply _ rfl)
    have h2 : OrchReach tv te rv re (⟨some (goTitleSend tv te), none, 0⟩ : OrchState)
        ⟨some (goTitleSend tv te), some ⟨rv, re⟩, 1⟩ :=
      OrchReach.tail h1 (OrchStep.recvTitle _ _ rfl rfl)
    exact OrchReach.tail h2 (OrchStep.recvReply _ _ rfl rfl)

/-- Witness for C8: a concrete pc = 2 state reached through the
reply-first interleaving has both slots delivered. -/
theorem C8_rendezvous_before_inspection_witness :
    (⟨some (goTitleSend "T" none), some ⟨"R", none⟩, 2⟩ : OrchState).titleSlot.isSome = true ∧
    (⟨some (goTitleSend "T" none), some ⟨"R", none⟩, 2⟩ : OrchState).replySlot.isSome = true := by
  have h := C8_rendezvous_before_inspection "T" none "R" none
  exact h.1 _ (OrchReach.trans h.2.1 h.2.2.1) (by decide)
